import Mathlib

/-!
Verification of the port-mapping worker (`src/mapport.cpp`).

The file shallowly embeds the protocol-arbitration code of `mapport.cpp`:

* the worker loop `ThreadMapPort` (lines 116-146) as an oracle-driven
  functional model producing an event trace, and
* the dispatcher surface `StartThreadMapPort`, `DispatchMapPort`,
  `MapPortProtoSetEnabled`, `StartMapPort`, `InterruptMapPort`,
  `StopMapPort` (lines 148-215) as state transformers over the four
  shared variables, emitting action traces.

`ProcessUpnp` / `ProcessNatpmp` (the blocking negotiation calls) and
`CThreadInterrupt::sleep_for` results are environmental oracles: the
worker only branches on their boolean results, so each loop iteration is
parameterised by the values those calls return and by the value the
atomic `g_mapport_enabled_protos` holds at each of the three points the
loop reads it.
-/

namespace Mapport

/-- MapPortProtoFlag::NONE (value 0x00). -/
def NONE : Nat := 0

/-- MapPortProtoFlag::UPNP (value 0x01), the high-priority protocol. -/
def UPNP : Nat := 1

/-- MapPortProtoFlag::NAT_PMP (value 0x02), the low-priority protocol. -/
def NAT_PMP : Nat := 2

/-- Environment of one iteration of the `do { ... } while` loop of
`ThreadMapPort`: the value the atomic `g_mapport_enabled_protos` holds at
each of the three reads (line 124 guard, line 133 guard, line 141
comparison), the boolean results of the negotiation calls `ProcessUpnp`
(line 126) and `ProcessNatpmp` (line 135), and whether the retry sleep
`g_mapport_interrupt.sleep_for(PORT_MAPPING_RETRY_PERIOD)` (line 145)
elapsed fully (`true`) or was interrupted (`false`). -/
structure IterEnv where
  enabledAtUpnp : Nat
  enabledAtNatpmp : Nat
  enabledAtExit : Nat
  upnpResult : Bool
  natpmpResult : Bool
  sleepElapsed : Bool
deriving Repr, DecidableEq

/-- Observable events of the worker loop, in program order:
`select p obs` is a write `g_mapport_current_proto = p` performed under a
guard that just read `g_mapport_enabled_protos` as `obs` (lines 124-125,
133-134); `callUpnp` / `callNatpmp` are invocations of the negotiation
calls (lines 126, 135); `clearCurrent` is the unconditional write
`g_mapport_current_proto = MapPortProtoFlag::NONE` (line 140);
`sleepRetry` is the retry-backoff sleep being entered (line 145). -/
inductive Event where
  | select (p obs : Nat)
  | callUpnp
  | callNatpmp
  | clearCurrent
  | sleepRetry
deriving Repr, DecidableEq

/-- Whether the loop body starts another iteration (`next`: via `continue`
or a fully elapsed retry sleep) or `ThreadMapPort` returns (`exit`). -/
inductive Outcome where
  | next
  | exit
deriving Repr, DecidableEq

/-- Tail of the loop body, lines 140-145: `g_mapport_current_proto = NONE`;
return if `g_mapport_enabled_protos == NONE`; otherwise the do-while
condition `ok || sleep_for(...)` runs the retry sleep (`ok` is always
`false` here, since `ok = true` took a `continue`). -/
def iterTail (env : IterEnv) : List Event × Outcome :=
  if env.enabledAtExit = NONE then
    ([Event.clearCurrent], Outcome.exit)
  else
    ([Event.clearCurrent, Event.sleepRetry],
      if env.sleepElapsed then Outcome.next else Outcome.exit)

/-- Low-priority branch, lines 131-138: if the NAT-PMP bit is set in the
freshly read enabled set, publish NAT-PMP as current and negotiate; a
`true` result is `continue` (do-while condition short-circuits on
`ok`). -/
def iterNatpmp (env : IterEnv) : List Event × Outcome :=
  if env.enabledAtNatpmp &&& NAT_PMP ≠ 0 then
    if env.natpmpResult then
      ([Event.select NAT_PMP env.enabledAtNatpmp, Event.callNatpmp], Outcome.next)
    else
      ([Event.select NAT_PMP env.enabledAtNatpmp, Event.callNatpmp] ++ (iterTail env).1,
        (iterTail env).2)
  else iterTail env

/-- One iteration of the `ThreadMapPort` loop body, lines 119-145, with
both `USE_UPNP` and `USE_NATPMP` compiled in. High-priority branch first
(lines 122-129): if the UPnP bit is set in the freshly read enabled set,
publish UPnP as current and negotiate; on success `continue`, on failure
fall through to the NAT-PMP branch. -/
def ThreadMapPortIter (env : IterEnv) : List Event × Outcome :=
  if env.enabledAtUpnp &&& UPNP ≠ 0 then
    if env.upnpResult then
      ([Event.select UPNP env.enabledAtUpnp, Event.callUpnp], Outcome.next)
    else
      ([Event.select UPNP env.enabledAtUpnp, Event.callUpnp] ++ (iterNatpmp env).1,
        (iterNatpmp env).2)
  else iterNatpmp env

/-- The `ThreadMapPort` loop run against a finite schedule of iteration
environments. Returns the concatenated event trace and whether the
function returned (`true`) within the schedule; running out of schedule
is not termination. -/
def ThreadMapPort : List IterEnv → List Event × Bool
  | [] => ([], false)
  | env :: rest =>
    match ThreadMapPortIter env with
    | (t, Outcome.exit) => (t, true)
    | (t, Outcome.next) =>
      ((t ++ (ThreadMapPort rest).1), (ThreadMapPort rest).2)

/-- Worker-visible state: the value of `g_mapport_current_proto` and the
value of `g_mapport_enabled_protos` observed by the guard that last
selected it. -/
structure WState where
  current : Nat
  lastObs : Nat
deriving Repr, DecidableEq

/-- State of the worker before its first iteration:
`g_mapport_current_proto` is initialised to NONE (line 39). -/
def initW : WState := { current := NONE, lastObs := NONE }

/-- Effect of one worker event on the worker-visible state. -/
def applyEvent (s : WState) : Event → WState
  | Event.select p obs => { current := p, lastObs := obs }
  | Event.clearCurrent => { s with current := NONE }
  | _ => s

/-- Fold a list of events over a worker-visible state. -/
def applyEvents (s : WState) (es : List Event) : WState :=
  es.foldl applyEvent s

/-- An event is well-guarded when any `select` of a protocol carries an
observation in which that protocol's bit was set. -/
def eventOk : Event → Bool
  | Event.select p obs => p &&& obs != 0
  | _ => true

/-- The invariant of claim C1: the published protocol is NONE or a member
of the enabled set as observed when it was selected. -/
def goodState (s : WState) : Prop :=
  s.current = NONE ∨ s.current &&& s.lastObs ≠ 0

/-! ### Dispatcher model

The four pieces of shared state of `mapport.cpp` (lines 36-39):
`g_mapport_interrupt` (its signaled flag), `g_mapport_thread` (whether it
is joinable), `g_mapport_enabled_protos`, `g_mapport_current_proto`.
Dispatcher functions are state transformers that additionally emit the
externally visible actions they perform, including each `assert`
evaluated with its value. -/

/-- Shared control state read and written by the dispatcher. -/
structure MState where
  enabled : Nat
  current : Nat
  joinable : Bool
  interrupted : Bool
deriving Repr, DecidableEq

/-- Actions a dispatcher call performs: spawning the worker thread
(line 152), signaling `g_mapport_interrupt()` (lines 182, 205), joining
the worker thread (line 212), resetting the interrupt token (line 213),
and evaluating an `assert` with the given value (lines 151, 178-179). -/
inductive DAction where
  | spawnThread
  | signalInterrupt
  | joinThread
  | resetInterrupt
  | assertCheck (ok : Bool)
deriving Repr, DecidableEq

/-- `StartThreadMapPort`, lines 148-154: spawn only when the thread is
not joinable, first asserting that the interrupt token is un-signaled. -/
def StartThreadMapPort (s : MState) : MState × List DAction :=
  if s.joinable then (s, [])
  else ({ s with joinable := true },
    [DAction.assertCheck (!s.interrupted), DAction.spawnThread])

/-- `InterruptMapPort`, lines 201-207: set `g_mapport_enabled_protos` to
NONE, then signal the interrupt if the worker thread is joinable. -/
def InterruptMapPort (s : MState) : MState × List DAction :=
  if s.joinable then
    ({ s with enabled := NONE, interrupted := true }, [DAction.signalInterrupt])
  else ({ s with enabled := NONE }, [])

/-- `StopMapPort`, lines 209-215: if the worker thread is joinable, join
it and then reset the interrupt token. The join blocks until
`ThreadMapPort` returns; the worker's last write to
`g_mapport_current_proto` before any return is NONE (line 140), so at the
join's return `current` is NONE. -/
def StopMapPort (s : MState) : MState × List DAction :=
  if s.joinable then
    ({ s with joinable := false, current := NONE, interrupted := false },
      [DAction.joinThread, DAction.resetInterrupt])
  else (s, [])

/-- `DispatchMapPort`, lines 156-183: the four-branch decision table over
`g_mapport_current_proto` and `g_mapport_enabled_protos`, falling through
to the protocol-switch interrupt with its two asserts (lines 178-182). -/
def DispatchMapPort (s : MState) : MState × List DAction :=
  if s.current = NONE ∧ s.enabled = NONE then (s, [])
  else if s.current = NONE ∧ s.enabled ≠ NONE then StartThreadMapPort s
  else if s.current ≠ NONE ∧ s.enabled = NONE then
    ((StopMapPort (InterruptMapPort s).1).1,
      (InterruptMapPort s).2 ++ (StopMapPort (InterruptMapPort s).1).2)
  else if s.enabled &&& s.current ≠ 0 then (s, [])
  else
    ({ s with interrupted := true },
      [DAction.assertCheck s.joinable, DAction.assertCheck (!s.interrupted),
        DAction.signalInterrupt])

/-- `MapPortProtoSetEnabled`, lines 185-192: set or clear one protocol's
bit in `g_mapport_enabled_protos`; `&= ~proto` on the 32-bit unsigned
atomic is masking with the 32-bit complement. -/
def MapPortProtoSetEnabled (proto : Nat) (enabled : Bool) (s : MState) : MState :=
  if enabled then { s with enabled := s.enabled ||| proto }
  else { s with enabled := s.enabled &&& (0xFFFFFFFF ^^^ proto) }

/-- The enabled-set value `StartMapPort use_upnp use_natpmp` installs
before dispatching (lines 196-197). -/
def newEnabled (use_upnp use_natpmp : Bool) (s : MState) : MState :=
  MapPortProtoSetEnabled NAT_PMP use_natpmp (MapPortProtoSetEnabled UPNP use_upnp s)

/-- `StartMapPort`, lines 194-199: update both protocol bits, then
dispatch. This is the `configure(use_upnp, use_natpmp)` surface. -/
def StartMapPort (use_upnp use_natpmp : Bool) (s : MState) : MState × List DAction :=
  DispatchMapPort (newEnabled use_upnp use_natpmp s)

/-- States of the shared control variables reachable from process start
under serialized dispatcher invocations interleaved with the worker's
own writes. The worker constructors mirror the worker's atomic effects:
`workerSelect` is the guarded write of lines 124-125 / 133-134 (only a
protocol whose bit it just read as enabled, only while the thread is
running, hence joinable); `workerClear` is the write of line 140;
`workerReset` is the interrupt reset the worker performs inside a
negotiation call (`g_mapport_interrupt.reset()`, line 100). -/
inductive Reachable : MState → Prop where
  | init : Reachable { enabled := NONE, current := NONE, joinable := false, interrupted := false }
  | start (u n : Bool) {s : MState} : Reachable s → Reachable (StartMapPort u n s).1
  | interruptCall {s : MState} : Reachable s → Reachable (InterruptMapPort s).1
  | stopCall {s : MState} : Reachable s → Reachable (StopMapPort s).1
  | workerSelect (p : Nat) {s : MState} : Reachable s → s.joinable = true →
      s.enabled &&& p ≠ 0 → (p = UPNP ∨ p = NAT_PMP) →
      Reachable { s with current := p }
  | workerClear {s : MState} : Reachable s → s.joinable = true →
      Reachable { s with current := NONE }
  | workerReset {s : MState} : Reachable s → s.joinable = true →
      Reachable { s with interrupted := false }

/-- Safety invariant of the shared control state: a non-joinable thread
handle implies an un-signaled interrupt token (so a spawn's assert
holds), and a published protocol implies a running, joinable thread. -/
def Inv (s : MState) : Prop :=
  (s.joinable = false → s.interrupted = false) ∧
  (s.current ≠ NONE → s.joinable = true)

/-! ### Worker-loop lemmas -/

theorem eventOk_iterTail (env : IterEnv) : ∀ e ∈ (iterTail env).1, eventOk e = true := by
  unfold iterTail
  split <;> intro e he <;> simp only [List.mem_cons, List.mem_singleton,
    List.not_mem_nil, or_false] at he
  · subst he; rfl
  · rcases he with rfl | rfl <;> rfl

theorem eventOk_iterNatpmp (env : IterEnv) : ∀ e ∈ (iterNatpmp env).1, eventOk e = true := by
  unfold iterNatpmp
  split
  · rename_i hguard
    split <;> intro e he <;>
      simp only [List.cons_append, List.nil_append, List.mem_cons,
        List.mem_singleton, List.not_mem_nil, or_false] at he
    · rcases he with rfl | rfl
      · simp only [eventOk, bne_iff_ne, ne_eq]
        rw [Nat.land_comm]
        exact hguard
      · rfl
    · rcases he with rfl | rfl | hmem
      · simp only [eventOk, bne_iff_ne, ne_eq]
        rw [Nat.land_comm]
        exact hguard
      · rfl
      · exact eventOk_iterTail env e hmem
  · exact eventOk_iterTail env

theorem eventOk_iter (env : IterEnv) : ∀ e ∈ (ThreadMapPortIter env).1, eventOk e = true := by
  unfold ThreadMapPortIter
  split
  · rename_i hguard
    split <;> intro e he <;>
      simp only [List.cons_append, List.nil_append, List.mem_cons,
        List.mem_singleton, List.not_mem_nil, or_false] at he
    · rcases he with rfl | rfl
      · simp only [eventOk, bne_iff_ne, ne_eq]
        rw [Nat.land_comm]
        exact hguard
      · rfl
    · rcases he with rfl | rfl | hmem
      · simp only [eventOk, bne_iff_ne, ne_eq]
        rw [Nat.land_comm]
        exact hguard
      · rfl
      · exact eventOk_iterNatpmp env e hmem
  · exact eventOk_iterNatpmp env

theorem eventOk_ThreadMapPort (envs : List IterEnv) :
    ∀ e ∈ (ThreadMapPort envs).1, eventOk e = true := by
  induction envs with
  | nil => intro e he; simp [ThreadMapPort] at he
  | cons env rest ih =>
    intro e he
    unfold ThreadMapPort at he
    split at he
    · rename_i heq
      have : e ∈ (ThreadMapPortIter env).1 := by rw [heq]; exact he
      exact eventOk_iter env e this
    · rename_i t heq
      simp only [List.mem_append] at he
      rcases he with h | h
      · have : e ∈ (ThreadMapPortIter env).1 := by rw [heq]; exact h
        exact eventOk_iter env e this
      · exact ih e h

theorem goodState_applyEvent (s : WState) (e : Event) (hs : goodState s)
    (he : eventOk e = true) : goodState (applyEvent s e) := by
  cases e with
  | select p obs =>
    simp only [eventOk, bne_iff_ne, ne_eq] at he
    exact Or.inr he
  | clearCurrent => exact Or.inl rfl
  | callUpnp => exact hs
  | callNatpmp => exact hs
  | sleepRetry => exact hs

theorem goodState_applyEvents (es : List Event) : ∀ s : WState, goodState s →
    (∀ e ∈ es, eventOk e = true) → goodState (applyEvents s es) := by
  induction es with
  | nil => intro s hs _; exact hs
  | cons e rest ih =>
    intro s hs hok
    exact ih (applyEvent s e)
      (goodState_applyEvent s e hs (hok e (List.mem_cons_self e rest)))
      (fun e' he' => hok e' (List.mem_cons_of_mem e he'))

/-- C1: for every reachable state of the worker loop, the value published
to `g_mapport_current_proto` is either NONE or a protocol whose bit was
set in `g_mapport_enabled_protos` at the guard read that selected it;
the worker never publishes a protocol it did not just observe as enabled.
Reachable states are the folds of every prefix of the worker's event
trace, for every schedule of environments. -/
theorem c1_active_protocol_observed_enabled (envs : List IterEnv) (n : Nat) :
    goodState (applyEvents initW ((ThreadMapPort envs).1.take n)) :=
  goodState_applyEvents _ initW (Or.inl rfl)
    (fun e he => eventOk_ThreadMapPort envs e (List.mem_of_mem_take he))

/-- C2: in every iteration whose guard read has the UPnP bit set, the
first two events are the selection of UPnP and its negotiation call, so
UPnP is attempted before NAT-PMP; if `ProcessUpnp` returns `true` the
iteration is exactly those two events and the loop `continue`s without
sleeping and without invoking the NAT-PMP client; consequently, with
only UPnP enabled and its negotiation always returning `true`, the
NAT-PMP client is never invoked, no retry sleep occurs, and the worker
never returns. -/
theorem c2_upnp_priority_and_short_circuit :
    (∀ env : IterEnv, env.enabledAtUpnp &&& UPNP ≠ 0 →
      (ThreadMapPortIter env).1.take 2 =
        [Event.select UPNP env.enabledAtUpnp, Event.callUpnp] ∧
      (env.upnpResult = true →
        ThreadMapPortIter env =
          ([Event.select UPNP env.enabledAtUpnp, Event.callUpnp], Outcome.next))) ∧
    (∀ envs : List IterEnv,
      (∀ e ∈ envs, e.enabledAtUpnp = UPNP ∧ e.upnpResult = true) →
      Event.callNatpmp ∉ (ThreadMapPort envs).1 ∧
      Event.sleepRetry ∉ (ThreadMapPort envs).1 ∧
      (ThreadMapPort envs).2 = false) := by
  constructor
  · intro env hg
    have hg' : ¬env.enabledAtUpnp &&& UPNP = 0 := hg
    cases hres : env.upnpResult <;> simp [ThreadMapPortIter, hg', hres]
  · intro envs h
    induction envs with
    | nil => exact ⟨by simp [ThreadMapPort], by simp [ThreadMapPort], rfl⟩
    | cons env rest ih =>
      obtain ⟨h1, h2⟩ := h env (List.mem_cons_self env rest)
      have hrest := ih (fun e he => h e (List.mem_cons_of_mem env he))
      have hiter : ThreadMapPortIter env =
          ([Event.select UPNP env.enabledAtUpnp, Event.callUpnp], Outcome.next) := by
        unfold ThreadMapPortIter
        rw [h1, h2]
        norm_num [UPNP]
      unfold ThreadMapPort
      rw [hiter]
      simp only [List.cons_append, List.nil_append, List.mem_cons]
      refine ⟨?_, ?_, hrest.2.2⟩
      · rintro (h | h | h)
        · exact Event.noConfusion h
        · exact Event.noConfusion h
        · exact hrest.1 h
      · rintro (h | h | h)
        · exact Event.noConfusion h
        · exact Event.noConfusion h
        · exact hrest.2.1 h

/-- Witness for C2 at a concrete input: the schedule where only UPnP is
enabled and each negotiation succeeds. -/
theorem c2_upnp_priority_and_short_circuit_witness :
    (ThreadMapPortIter ⟨1, 1, 1, true, true, true⟩).1.take 2 =
      [Event.select UPNP 1, Event.callUpnp] ∧
    Event.callNatpmp ∉ (ThreadMapPort [⟨1, 1, 1, true, true, true⟩]).1 :=
  ⟨(c2_upnp_priority_and_short_circuit.1 ⟨1, 1, 1, true, true, true⟩ (by decide)).1,
    (c2_upnp_priority_and_short_circuit.2 [⟨1, 1, 1, true, true, true⟩] (by decide)).1⟩

/-- C4 counterexample: with both protocols enabled (enabled set 3) and
`ProcessUpnp` returning failure, the very same cycle invokes
`ProcessNatpmp` immediately after the failed UPnP call: the first four
events contain both negotiation calls with no retry sleep between them,
refuting the claim that a failed negotiation is followed by no further
negotiation in the same cycle. -/
theorem c4_counterexample :
    (ThreadMapPortIter ⟨3, 3, 3, false, false, true⟩).1 =
      [Event.select UPNP 3, Event.callUpnp, Event.select NAT_PMP 3,
        Event.callNatpmp, Event.clearCurrent, Event.sleepRetry] ∧
    Event.sleepRetry ∉ (ThreadMapPortIter ⟨3, 3, 3, false, false, true⟩).1.take 4 := by
  decide

/-- C4 amended: no protocol is retried within a cycle (each negotiation
call occurs at most once per iteration); a failed UPnP attempt falls
through to a NAT-PMP attempt in the same cycle when NAT-PMP is enabled;
and a cycle hands control to the next iteration only after either a
successful negotiation call or the retry-backoff sleep — never directly
after a failure. -/
theorem c4_amended_backoff_after_final_failure :
    (∀ env : IterEnv,
      (ThreadMapPortIter env).1.count Event.callUpnp ≤ 1 ∧
      (ThreadMapPortIter env).1.count Event.callNatpmp ≤ 1) ∧
    (∀ env : IterEnv, env.enabledAtUpnp &&& UPNP ≠ 0 → env.upnpResult = false →
      env.enabledAtNatpmp &&& NAT_PMP ≠ 0 →
      (ThreadMapPortIter env).1.take 4 =
        [Event.select UPNP env.enabledAtUpnp, Event.callUpnp,
          Event.select NAT_PMP env.enabledAtNatpmp, Event.callNatpmp]) ∧
    (∀ env : IterEnv, (ThreadMapPortIter env).2 = Outcome.next →
      (ThreadMapPortIter env).1.getLast? = some Event.sleepRetry ∨
      ((ThreadMapPortIter env).1.getLast? = some Event.callUpnp ∧
        env.upnpResult = true) ∨
      ((ThreadMapPortIter env).1.getLast? = some Event.callNatpmp ∧
        env.natpmpResult = true)) := by
  refine ⟨?_, ?_, ?_⟩
  · intro env
    unfold ThreadMapPortIter iterNatpmp iterTail
    repeat' split
    all_goals simp_all [List.count_cons, List.count_append, List.count_nil]
  · intro env h1 h2 h3
    have h1' : ¬env.enabledAtUpnp &&& UPNP = 0 := h1
    have h3' : ¬env.enabledAtNatpmp &&& NAT_PMP = 0 := h3
    cases hn : env.natpmpResult <;>
      simp [ThreadMapPortIter, iterNatpmp, h1', h2, h3', hn]
  · intro env
    unfold ThreadMapPortIter iterNatpmp iterTail
    repeat' split
    all_goals simp_all

/-- Witness for C4's amended theorem at concrete inputs: both protocols
enabled, UPnP failing, NAT-PMP succeeding. -/
theorem c4_amended_backoff_after_final_failure_witness :
    (ThreadMapPortIter ⟨3, 3, 3, false, true, true⟩).1.count Event.callUpnp ≤ 1 ∧
    (ThreadMapPortIter ⟨3, 3, 3, false, true, true⟩).1.take 4 =
      [Event.select UPNP 3, Event.callUpnp, Event.select NAT_PMP 3,
        Event.callNatpmp] ∧
    ((ThreadMapPortIter ⟨3, 3, 3, false, true, true⟩).1.getLast? =
        some Event.sleepRetry ∨
      ((ThreadMapPortIter ⟨3, 3, 3, false, true, true⟩).1.getLast? =
          some Event.callUpnp ∧ (false : Bool) = true) ∨
      ((ThreadMapPortIter ⟨3, 3, 3, false, true, true⟩).1.getLast? =
          some Event.callNatpmp ∧ (true : Bool) = true)) :=
  ⟨(c4_amended_backoff_after_final_failure.1 ⟨3, 3, 3, false, true, true⟩).1,
    c4_amended_backoff_after_final_failure.2.1 ⟨3, 3, 3, false, true, true⟩
      (by decide) (by decide) (by decide),
    c4_amended_backoff_after_final_failure.2.2 ⟨3, 3, 3, false, true, true⟩
      (by decide)⟩

/-- C5 counterexample: with only UPnP enabled and failing, the retry
sleep is entered; when that sleep is interrupted (`sleep_for` returns
`false`), the do-while condition `ok || sleep_for(...)` is false and
`ThreadMapPort` returns — the loop terminates instead of looping back to
re-evaluate the enabled set. -/
theorem c5_counterexample :
    Event.sleepRetry ∈ (ThreadMapPortIter ⟨1, 1, 1, false, false, false⟩).1 ∧
    (ThreadMapPortIter ⟨1, 1, 1, false, false, false⟩).2 = Outcome.exit ∧
    (ThreadMapPort [⟨1, 1, 1, false, false, false⟩]).2 = true := by
  decide

/-- C5 amended: in any cycle that enters the retry-backoff sleep, the
loop runs another iteration exactly when the sleep elapsed fully; an
interrupted retry wait makes `ThreadMapPort` return (it does not loop
back to re-evaluate). -/
theorem c5_amended_interrupted_retry_wait_exits (env : IterEnv)
    (h : Event.sleepRetry ∈ (ThreadMapPortIter env).1) :
    (ThreadMapPortIter env).2 =
      (if env.sleepElapsed then Outcome.next else Outcome.exit) := by
  unfold ThreadMapPortIter iterNatpmp iterTail at h ⊢
  repeat' split
  all_goals simp_all

/-- Witness for C5's amended theorem: a cycle with no protocol bit
observed at the guards, a non-NONE enabled set at the exit check, and a
fully elapsed sleep loops back. -/
theorem c5_amended_interrupted_retry_wait_exits_witness :
    (ThreadMapPortIter ⟨0, 0, 1, false, false, true⟩).2 =
      (if true then Outcome.next else Outcome.exit) :=
  c5_amended_interrupted_retry_wait_exits ⟨0, 0, 1, false, false, true⟩ (by decide)

/-- C7 counterexample: a cycle in which every read of
`g_mapport_enabled_protos` returns {NAT-PMP} (so a protocol stays
enabled), `ProcessNatpmp` fails and the retry sleep is interrupted makes
`ThreadMapPort` return: the worker reaches its terminal state while the
enabled set is non-empty. -/
theorem c7_counterexample :
    (ThreadMapPort [⟨2, 2, 2, false, false, false⟩]).2 = true ∧
    (⟨2, 2, 2, false, false, false⟩ : IterEnv).enabledAtExit ≠ NONE := by
  decide

theorem iter_exit_of_elapsed (env : IterEnv) (h1 : env.sleepElapsed = true)
    (h2 : (ThreadMapPortIter env).2 = Outcome.exit) : env.enabledAtExit = NONE := by
  unfold ThreadMapPortIter iterNatpmp iterTail at h2
  repeat' split at h2
  all_goals simp_all

/-- C7 amended: as long as no retry-backoff wait is interrupted, the
worker loop reaches its terminal state only when the exit check read
`g_mapport_enabled_protos` as NONE; termination with a protocol still
enabled requires an interrupted retry wait. -/
theorem c7_amended_termination_needs_empty_or_interrupt (envs : List IterEnv)
    (hs : ∀ e ∈ envs, e.sleepElapsed = true)
    (ht : (ThreadMapPort envs).2 = true) :
    ∃ e ∈ envs, e.enabledAtExit = NONE := by
  induction envs with
  | nil => simp [ThreadMapPort] at ht
  | cons env rest ih =>
    unfold ThreadMapPort at ht
    split at ht
    · rename_i heq
      refine ⟨env, List.mem_cons_self env rest, ?_⟩
      exact iter_exit_of_elapsed env (hs env (List.mem_cons_self env rest))
        (by rw [heq])
    · rename_i t heq
      obtain ⟨e, he, hee⟩ := ih (fun e he => hs e (List.mem_cons_of_mem env he)) ht
      exact ⟨e, List.mem_cons_of_mem env he, hee⟩

/-- Witness for C7's amended theorem: an uninterrupted schedule in which
the worker terminates because nothing is enabled. -/
theorem c7_amended_termination_needs_empty_or_interrupt_witness :
    ∃ e ∈ [(⟨0, 0, 0, true, true, true⟩ : IterEnv)], e.enabledAtExit = NONE :=
  c7_amended_termination_needs_empty_or_interrupt
    [⟨0, 0, 0, true, true, true⟩] (by decide) (by decide)

theorem iter_exit_current_none (env : IterEnv)
    (h : (ThreadMapPortIter env).2 = Outcome.exit) : ∀ s : WState,
    (applyEvents s (ThreadMapPortIter env).1).current = NONE := by
  intro s
  unfold ThreadMapPortIter iterNatpmp iterTail at h ⊢
  repeat' split
  all_goals simp_all [applyEvents, applyEvent]

theorem run_terminated_current_none (envs : List IterEnv) : ∀ s : WState,
    (ThreadMapPort envs).2 = true →
    (applyEvents s (ThreadMapPort envs).1).current = NONE := by
  induction envs with
  | nil => intro s h; simp [ThreadMapPort] at h
  | cons env rest ih =>
    intro s h
    unfold ThreadMapPort at h ⊢
    split at h
    · rename_i t heq
      have h2 : (ThreadMapPortIter env).2 = Outcome.exit := by rw [heq]
      have h3 := iter_exit_current_none env h2 s
      rw [heq] at h3
      exact h3
    · rename_i t heq
      simp only [applyEvents, List.foldl_append]
      exact ih (List.foldl applyEvent s t) h

/-- C10: on every path on which `ThreadMapPort` returns, the last write
to `g_mapport_current_proto` was NONE (line 140 precedes both the
`return` at line 142 and the do-while exit at line 145), so an observer
of a stopped worker reads NONE. -/
theorem c10_stopped_worker_reads_none (envs : List IterEnv)
    (h : (ThreadMapPort envs).2 = true) :
    (applyEvents initW (ThreadMapPort envs).1).current = NONE :=
  run_terminated_current_none envs initW h

/-- Witness for C10: the schedule that observes an empty enabled set and
returns at once. -/
theorem c10_stopped_worker_reads_none_witness :
    (applyEvents initW (ThreadMapPort [(⟨0, 0, 0, true, true, true⟩ : IterEnv)]).1).current =
      NONE :=
  c10_stopped_worker_reads_none [⟨0, 0, 0, true, true, true⟩] (by decide)

/-! ### Dispatcher claims -/

/-- C3 counterexample: with UPnP enabled before the call,
`InterruptMapPort` leaves the enabled set NONE rather than its prior
value — line 203 assigns `g_mapport_enabled_protos =
MapPortProtoFlag::NONE` unconditionally. -/
theorem c3_counterexample :
    (InterruptMapPort ⟨UPNP, UPNP, true, false⟩).1.enabled ≠
      (⟨UPNP, UPNP, true, false⟩ : MState).enabled := by
  decide

/-- C3 amended: `InterruptMapPort` forces re-evaluation by signaling the
interrupt token whenever the worker thread is joinable, but it does not
preserve EnabledSet: after the call the enabled set is always NONE. The
current protocol and the thread handle are untouched. -/
theorem c3_amended_interrupt_clears_enabled (s : MState) :
    (InterruptMapPort s).1.enabled = NONE ∧
    (InterruptMapPort s).1.current = s.current ∧
    (InterruptMapPort s).1.joinable = s.joinable ∧
    (InterruptMapPort s).1.interrupted = (s.joinable || s.interrupted) ∧
    (InterruptMapPort s).2 =
      (if s.joinable then [DAction.signalInterrupt] else []) := by
  unfold InterruptMapPort
  cases h : s.joinable <;> simp [h]

/-- C6: when the dispatcher observes an active protocol, a newly computed
empty enabled set, and the (then necessarily joinable) worker thread, it
signals the interrupt token, joins the worker to completion, and then
resets the token: the emitted actions are exactly signal, join, reset in
that order, and the resulting state has no enabled or current protocol,
no thread, and an un-signaled (re-armed) token. -/
theorem c6_disable_all_signals_joins_resets (s : MState)
    (h1 : s.current ≠ NONE) (h2 : s.enabled = NONE) (h3 : s.joinable = true) :
    DispatchMapPort s =
      ({ enabled := NONE, current := NONE, joinable := false, interrupted := false },
        [DAction.signalInterrupt, DAction.joinThread, DAction.resetInterrupt]) := by
  unfold DispatchMapPort InterruptMapPort StopMapPort
  simp [h1, h2, h3]

/-- Witness for C6: disabling both protocols while UPnP is the active
protocol and the worker thread is running. -/
theorem c6_disable_all_signals_joins_resets_witness :
    DispatchMapPort ⟨NONE, UPNP, true, false⟩ =
      ({ enabled := NONE, current := NONE, joinable := false, interrupted := false },
        [DAction.signalInterrupt, DAction.joinThread, DAction.resetInterrupt]) :=
  c6_disable_all_signals_joins_resets ⟨NONE, UPNP, true, false⟩
    (by decide) (by decide) (by decide)

theorem bits_idem_tt (e p q : Nat) :
    (((e ||| p) ||| q) ||| p) ||| q = (e ||| p) ||| q := by
  apply Nat.eq_of_testBit_eq
  intro i
  simp only [Nat.testBit_lor]
  cases he : e.testBit i <;> cases hp : p.testBit i <;> cases hq : q.testBit i <;> rfl

theorem bits_idem_tf (e p q : Nat) :
    (((e ||| p) &&& q) ||| p) &&& q = (e ||| p) &&& q := by
  apply Nat.eq_of_testBit_eq
  intro i
  simp only [Nat.testBit_lor, Nat.testBit_land]
  cases he : e.testBit i <;> cases hp : p.testBit i <;> cases hq : q.testBit i <;> rfl

theorem bits_idem_ft (e p q : Nat) :
    (((e &&& p) ||| q) &&& p) ||| q = (e &&& p) ||| q := by
  apply Nat.eq_of_testBit_eq
  intro i
  simp only [Nat.testBit_lor, Nat.testBit_land]
  cases he : e.testBit i <;> cases hp : p.testBit i <;> cases hq : q.testBit i <;> rfl

theorem bits_idem_ff (e p q : Nat) :
    (((e &&& p) &&& q) &&& p) &&& q = (e &&& p) &&& q := by
  apply Nat.eq_of_testBit_eq
  intro i
  simp only [Nat.testBit_land]
  cases he : e.testBit i <;> cases hp : p.testBit i <;> cases hq : q.testBit i <;> rfl

theorem newEnabled_idem (u n : Bool) (s : MState) :
    newEnabled u n (newEnabled u n s) = newEnabled u n s := by
  cases u <;> cases n <;>
    simp only [newEnabled, MapPortProtoSetEnabled, if_true, if_false,
      Bool.false_eq_true, MState.mk.injEq, and_true, true_and] <;>
    first
      | exact bits_idem_ff s.enabled _ _
      | exact bits_idem_ft s.enabled _ _
      | exact bits_idem_tf s.enabled _ _
      | exact bits_idem_tt s.enabled _ _

theorem newEnabled_frame (u n : Bool) (s : MState) :
    (newEnabled u n s).current = s.current ∧
    (newEnabled u n s).joinable = s.joinable ∧
    (newEnabled u n s).interrupted = s.interrupted := by
  cases u <;> cases n <;> exact ⟨rfl, rfl, rfl⟩

/-- C8: if after recomputing the enabled set the active protocol is still
a member of it, the dispatch is a no-op apart from the enabled-set update
itself: no spawn, no interrupt signal, no join, no assert, and an
immediately repeated configure call with the same arguments changes
nothing at all. -/
theorem c8_still_enabled_noop (u n : Bool) (s : MState)
    (h1 : s.current ≠ NONE)
    (h2 : (newEnabled u n s).enabled &&& s.current ≠ 0) :
    StartMapPort u n s = (newEnabled u n s, []) ∧
    StartMapPort u n (newEnabled u n s) = (newEnabled u n s, []) := by
  obtain ⟨hc, _, _⟩ := newEnabled_frame u n s
  have henn : (newEnabled u n s).enabled ≠ NONE := by
    intro h0
    rw [h0] at h2
    exact h2 (Nat.zero_and s.current)
  constructor
  · unfold StartMapPort DispatchMapPort
    rw [hc]
    simp [h1, henn, h2, hc]
  · unfold StartMapPort
    rw [newEnabled_idem]
    unfold DispatchMapPort
    rw [hc]
    simp [h1, henn, h2, hc]

/-- Witness for C8: enabling both protocols while UPnP is active. -/
theorem c8_still_enabled_noop_witness :
    StartMapPort true true ⟨UPNP, UPNP, true, false⟩ =
      (newEnabled true true ⟨UPNP, UPNP, true, false⟩, []) :=
  (c8_still_enabled_noop true true ⟨UPNP, UPNP, true, false⟩
    (by decide) (by decide)).1

theorem inv_startThread {s : MState} (h : Inv s) : Inv (StartThreadMapPort s).1 := by
  unfold StartThreadMapPort
  cases hj : s.joinable
  · exact ⟨fun hf => by simp at hf, fun _ => rfl⟩
  · exact ⟨fun hf => h.1 hf, h.2⟩

theorem inv_interrupt {s : MState} (h : Inv s) : Inv (InterruptMapPort s).1 := by
  obtain ⟨h1, h2⟩ := h
  unfold InterruptMapPort Inv
  cases hj : s.joinable <;> simp_all

theorem inv_stop {s : MState} (h : Inv s) : Inv (StopMapPort s).1 := by
  obtain ⟨h1, h2⟩ := h
  unfold StopMapPort Inv
  cases hj : s.joinable <;> simp_all

theorem inv_dispatch {s : MState} (h : Inv s) : Inv (DispatchMapPort s).1 := by
  unfold DispatchMapPort
  split
  · exact h
  · split
    · exact inv_startThread h
    · split
      · exact inv_stop (inv_interrupt h)
      · split
        · exact h
        · rename_i hnot1 hnot2 hnot3 hnot4
          have hc : s.current ≠ NONE := by
            intro hc0
            rcases Decidable.em (s.enabled = NONE) with he | he
            · exact hnot1 ⟨hc0, he⟩
            · exact hnot2 ⟨hc0, he⟩
          have hj := h.2 hc
          exact ⟨fun hf => absurd hf (by simp [hj]), fun _ => hj⟩

theorem inv_newEnabled (u n : Bool) {s : MState} (h : Inv s) :
    Inv (newEnabled u n s) := by
  obtain ⟨hc, hj, hi⟩ := newEnabled_frame u n s
  exact ⟨fun hf => by rw [hj] at hf; rw [hi]; exact h.1 hf,
    fun hcc => by rw [hj]; exact h.2 (by rw [hc] at hcc; exact hcc)⟩

theorem reachable_inv {s : MState} (h : Reachable s) : Inv s := by
  induction h with
  | init => exact ⟨fun _ => rfl, fun hc => absurd rfl hc⟩
  | start u n _ ih => exact inv_dispatch (inv_newEnabled u n ih)
  | interruptCall _ ih => exact inv_interrupt ih
  | stopCall _ ih => exact inv_stop ih
  | workerSelect p _ hj hb hp ih =>
    exact ⟨fun hf => by rw [hj] at hf; exact absurd hf (by simp), fun _ => hj⟩
  | workerClear _ hj ih =>
    exact ⟨ih.1, fun hc => absurd rfl hc⟩
  | workerReset _ hj ih =>
    exact ⟨fun _ => rfl, ih.2⟩

/-- C9 amended: in every reachable state under serialized dispatcher
invocations, the spawn path is sound: `StartThreadMapPort` never
evaluates its `assert(!g_mapport_interrupt)` to false, spawning is lazy
and idempotent (a joinable thread means the call is a no-op), and the
protocol-switch branch's `assert(g_mapport_thread.joinable())` holds
whenever a protocol is active. The branch's second assertion
(`assert(!g_mapport_interrupt)`, line 179) is NOT always valid — see the
counterexample — so it is dropped from the claim. -/
theorem c9_amended_spawn_asserts_hold (s : MState) (h : Reachable s) :
    DAction.assertCheck false ∉ (StartThreadMapPort s).2 ∧
    (s.joinable = true → StartThreadMapPort s = (s, [])) ∧
    (s.current ≠ NONE → s.joinable = true) := by
  have hi := reachable_inv h
  refine ⟨?_, ?_, hi.2⟩
  · unfold StartThreadMapPort
    cases hj : s.joinable
    · have hun : s.interrupted = false := hi.1 hj
      simp [hun]
    · simp
  · intro hj
    unfold StartThreadMapPort
    simp [hj]

theorem reachable_spawned : Reachable ⟨1, 0, true, false⟩ := by
  have h0 := Reachable.start true false Reachable.init
  rwa [show (StartMapPort true false
    { enabled := NONE, current := NONE, joinable := false, interrupted := false }).1 =
      ⟨1, 0, true, false⟩ from by decide] at h0

theorem reachable_upnp_active : Reachable ⟨1, 1, true, false⟩ :=
  Reachable.workerSelect UPNP reachable_spawned rfl (by decide) (Or.inl rfl)

theorem reachable_switch_pending : Reachable ⟨2, 1, true, true⟩ := by
  have h2 := Reachable.start false true reachable_upnp_active
  rwa [show (StartMapPort false true ⟨1, 1, true, false⟩).1 =
      ⟨2, 1, true, true⟩ from by decide] at h2

/-- C9 counterexample: from process start run `configure(true, false)`
(spawns the worker), let the worker select UPnP, then run
`configure(false, true)` twice in succession. The first switch dispatch
signals the interrupt; the second reaches the protocol-switch branch
with the token still signaled (the worker, blocked inside a negotiation
call, has not consumed it), so its `assert(!g_mapport_interrupt)`
(line 179) evaluates to false: the assertion does not hold at every
serialized-dispatcher reachable state. -/
theorem c9_counterexample :
    Reachable ⟨2, 1, true, true⟩ ∧
    DAction.assertCheck false ∈ (StartMapPort false true ⟨2, 1, true, true⟩).2 :=
  ⟨reachable_switch_pending, by decide⟩

/-- Witness for C9's amended theorem at the reachable state where UPnP is
active and the token un-signaled. -/
theorem c9_amended_spawn_asserts_hold_witness :
    DAction.assertCheck false ∉ (StartThreadMapPort ⟨1, 1, true, false⟩).2 ∧
    StartThreadMapPort ⟨1, 1, true, false⟩ = (⟨1, 1, true, false⟩, []) :=
  ⟨(c9_amended_spawn_asserts_hold ⟨1, 1, true, false⟩ reachable_upnp_active).1,
    (c9_amended_spawn_asserts_hold ⟨1, 1, true, false⟩ reachable_upnp_active).2.1 rfl⟩

end Mapport
